import Mathlib

/-!
Verification development for the 4D Helper network-scanning core
(`src/utils/serverScanner.ts` and the scan cache in
`src/utils/serverManager.ts`).

Modelling conventions:
* JavaScript numbers that hold ports, octets or timestamps are modelled as
  `Int` (JS arithmetic on these values is exact integer arithmetic, and it
  can go negative, e.g. `broadcastParts[3] - 1`).
* Dotted-quad IP strings handled by `calculateSubnet` are modelled in their
  split form, as the list of octets produced by `ip.split(".").map(Number)`;
  `generateSubnetIPs` re-joins them into strings exactly as the source's
  template literals do.
* Network effects (TCP connects, UDP datagrams) are modelled by oracles
  packaged in a `ScanEnv`: `probeOutcome` gives the outcome of one TCP
  connection attempt, `discover` gives the parsed reply (if any) of one UDP
  discovery exchange, and `netInfo` is the result of `getLocalNetworkInfo`.
* `JSON.parse` (a library routine, not repository code) is an oracle
  parameter `jsonParse`; the brace-extraction and failure handling around it
  are modelled faithfully.
-/

namespace FourDHelper

/-- ServerScanResult from serverScanner.ts: outcome of one TCP probe. -/
structure ServerScanResult where
  host : String
  port : Int
  isOpen : Bool
  responseTime : Option Int
deriving Repr, DecidableEq

/-- Server4DDiscoveryInfo from serverScanner.ts: identity claimed in a UDP reply. -/
structure Server4DDiscoveryInfo where
  host : String
  service : String
  database : String
  port : Int
deriving Repr, DecidableEq

/-- Server4DScanResult from serverScanner.ts: scan result extended with discovery data. -/
structure Server4DScanResult where
  host : String
  port : Int
  isOpen : Bool
  responseTime : Option Int
  discoveryInfo : Option Server4DDiscoveryInfo
  relatedPorts : Option (List Int)
deriving Repr, DecidableEq

/-- SubnetInfo from serverScanner.ts. The dotted-quad string fields are kept
in split (octet list) form; `calculateSubnet` in the source immediately
splits them again wherever it consumes them. -/
structure SubnetInfo where
  localIp : List Int
  netmask : List Int
  networkAddress : List Int
  broadcastAddress : List Int
  firstHost : List Int
  lastHost : List Int
  totalHosts : Int
deriving Repr, DecidableEq

/-! ## Scan cache (serverManager.ts) -/

/-- Server4DWithStatus from serverManager.ts. -/
structure Server4DWithStatus where
  name : String
  host : String
  port : Int
  isOnline : Bool
  responseTime : Option Int
  detectedPorts : Option (List Int)
  discoveryInfo : Option Server4DDiscoveryInfo
deriving Repr, DecidableEq

/-- ScanCache from serverManager.ts; `portsByHost` (a JS Map of Sets) is an
association list. -/
structure ScanCache where
  servers : List Server4DWithStatus
  timestamp : Int
  portsByHost : List (String × List Int)
deriving Repr, DecidableEq

/-- setScanCache from serverManager.ts: the entry stored when the cache is set
at time `now` (the source reads `Date.now()`; the ambient clock is passed
explicitly). The global variable holds `some` of this entry afterwards. -/
def setScanCache (servers : List Server4DWithStatus)
    (portsByHost : List (String × List Int)) (now : Int) : ScanCache :=
  { servers := servers, timestamp := now, portsByHost := portsByHost }

/-- isScanCacheStale from serverManager.ts, over the explicit cache state
(`none` when the global `scanCache` is null) and the ambient clock `now`. -/
def isScanCacheStale (scanCache : Option ScanCache) (now : Int)
    (cacheTimeoutSeconds : Int) : Bool :=
  match scanCache with
  | none => true
  | some c =>
    let ageMs := now - c.timestamp
    decide (ageMs > cacheTimeoutSeconds * 1000)

/-! ## Discovery packet (build4DDiscoveryPacket) -/

/-- Byte sequence of an ASCII string, as `Buffer.write(s, off, "utf8")`
produces for the pure-ASCII tags used by the packet builder. -/
def asciiBytes (s : String) : List Nat := s.data.map Char.toNat

/-- Model of `Buffer.alloc(n, 0)`: `n` zero bytes. -/
def bufAlloc (n : Nat) : List Nat := List.replicate n 0

/-- Model of `Buffer.write(s, off)`: overwrite the bytes of `buf` from
offset `off` with the ASCII bytes of `s`, leaving all other bytes. -/
def bufWrite (buf : List Nat) (s : String) (off : Nat) : List Nat :=
  (List.range buf.length).map (fun i =>
    if off ≤ i ∧ i < off + (asciiBytes s).length then (asciiBytes s).getD (i - off) 0
    else buf.getD i 0)

/-- build4DDiscoveryPacket from serverScanner.ts: a 96-byte zero buffer with
"4D Server V" written at offset 32 and "4DQuicNegociation" at offset 64. -/
def build4DDiscoveryPacket : List Nat :=
  bufWrite (bufWrite (bufAlloc 96) "4D Server V" 32) "4DQuicNegociation" 64

/-! ## Subnet arithmetic (calculateSubnet, generateSubnetIPs) -/

/-- calculateSubnet from serverScanner.ts, over the octet lists produced by
`split(".").map(Number)`. JS bitwise `&`/`|` on in-range octets is `Int.land`
and `Int.lor`; `255 - part`, the `+= 1`, `-= 1` and the `reduce` computing
`totalHosts` are exact integer arithmetic (so `totalHosts` may be negative). -/
def calculateSubnet (ipParts maskParts : List Int) : SubnetInfo :=
  let networkParts := ipParts.mapIdx (fun i part => part.land (maskParts.getD i 0))
  let invertedMask := maskParts.map (fun part => 255 - part)
  let broadcastParts := networkParts.mapIdx (fun i part => part.lor (invertedMask.getD i 0))
  let firstHostParts := networkParts.set 3 (networkParts.getD 3 0 + 1)
  let lastHostParts := broadcastParts.set 3 (broadcastParts.getD 3 0 - 1)
  let totalHosts := invertedMask.foldl (fun acc val => acc * (val + 1)) 1 - 2
  { localIp := ipParts
    netmask := maskParts
    networkAddress := networkParts
    broadcastAddress := broadcastParts
    firstHost := firstHostParts
    lastHost := lastHostParts
    totalHosts := totalHosts }

/-- Dotted-quad string built by the template literals of generateSubnetIPs. -/
def ipString (a b c d : Int) : String :=
  toString a ++ "." ++ toString b ++ "." ++ toString c ++ "." ++ toString d

/-- Values taken by a JS `for (let i = lo; i <= hi; i++)` counter. -/
def jsForRange (lo hi : Int) : List Int :=
  (List.range (hi - lo + 1).toNat).map (fun k => lo + k)

/-- generateSubnetIPs from serverScanner.ts: enumerate `firstHost..lastHost`
when they share the first three octets, otherwise fall back to `.1`–`.254`
of the local /24. -/
def generateSubnetIPs (subnetInfo : SubnetInfo) : List String :=
  let startParts := subnetInfo.firstHost
  let endParts := subnetInfo.lastHost
  if startParts.getD 0 0 = endParts.getD 0 0 ∧
      startParts.getD 1 0 = endParts.getD 1 0 ∧
      startParts.getD 2 0 = endParts.getD 2 0 then
    (jsForRange (startParts.getD 3 0) (endParts.getD 3 0)).map (fun i =>
      ipString (startParts.getD 0 0) (startParts.getD 1 0) (startParts.getD 2 0) i)
  else
    let localParts := subnetInfo.localIp
    (jsForRange 1 254).map (fun i =>
      ipString (localParts.getD 0 0) (localParts.getD 1 0) (localParts.getD 2 0) i)

/-! ## Discovery reply handling (discover4DServer) -/

/-- Opening brace character. -/
def openBrace : Char := Char.ofNat 123

/-- Closing brace character. -/
def closeBrace : Char := Char.ofNat 125

/-- JS `String.prototype.indexOf` for a single character: index of the first
occurrence, or `-1`. -/
def jsIndexOfChar (s : List Char) (c : Char) : Int :=
  match s.findIdx? (fun x => x = c) with
  | none => -1
  | some i => (i : Int)

/-- JS `String.prototype.lastIndexOf` for a single character: index of the
last occurrence, or `-1`. -/
def jsLastIndexOfChar (s : List Char) (c : Char) : Int :=
  match s.reverse.findIdx? (fun x => x = c) with
  | none => -1
  | some i => (s.length : Int) - 1 - i

/-- JS `substring(startIdx, endIdx)` as used at the call site (indices within
range, start before end). -/
def jsSubstring (s : List Char) (startIdx endIdx : Int) : List Char :=
  ((s.drop startIdx.toNat).take (endIdx - startIdx).toNat)

/-- Message handler of discover4DServer from serverScanner.ts: find the
substring between the first opening brace and the last closing brace of the
reply text and parse it; the absence of either brace, or a parse failure
(the `catch` arm), yields `none` instead of an error. `jsonParse` is the
`JSON.parse`-plus-cast oracle (library code, not repository code); a parse
exception is its `none`. -/
def parse4DDiscoveryReply (jsonParse : String → Option Server4DDiscoveryInfo)
    (msg : String) : Option Server4DDiscoveryInfo :=
  let msgStr := msg.data
  let jsonStart := jsIndexOfChar msgStr openBrace
  let jsonEnd := jsLastIndexOfChar msgStr closeBrace
  if jsonStart = -1 ∨ jsonEnd = -1 then none
  else jsonParse (String.mk (jsSubstring msgStr jsonStart (jsonEnd + 1)))

/-! ## Scan orchestration -/

/-- Oracle bundle for the network effects of one scan run. -/
structure ScanEnv where
  probeOutcome : String → Int → Bool × Int
  discover : String → Int → Option Server4DDiscoveryInfo
  netInfo : Option SubnetInfo

/-- checkPort from serverScanner.ts: one TCP connection attempt. On connect
the elapsed time is recorded and the port is open; on timeout or error the
port is closed with no elapsed time. `env.probeOutcome` supplies whether the
connect succeeds and the elapsed time when it does. -/
def checkPort (env : ScanEnv) (host : String) (port : Int) : ServerScanResult :=
  let outcome := env.probeOutcome host port
  if outcome.1 then
    { host := host, port := port, isOpen := true, responseTime := some outcome.2 }
  else
    { host := host, port := port, isOpen := false, responseTime := none }

/-- scanHostPorts from serverScanner.ts: probe every port of one host and
keep only the open results. -/
def scanHostPorts (env : ScanEnv) (host : String) (ports : List Int) :
    List ServerScanResult :=
  (ports.map (fun port => checkPort env host port)).filter (fun r => r.isOpen)

/-- One progress-callback invocation `(scanned, total, found)`. -/
structure ProgressEvent where
  scanned : Nat
  total : Nat
  found : List ServerScanResult
deriving Repr, DecidableEq

/-- Fuel-driven batch splitting (structural recursion so that concrete runs
evaluate). -/
def chunkListAux {α : Type} : Nat → Nat → List α → List (List α)
  | 0, _, _ => []
  | _, _, [] => []
  | fuel + 1, bs, l => l.take bs :: chunkListAux fuel bs (l.drop bs)

/-- The batches `l.slice(i, i + batchSize)` visited by the source's
`for (let i = 0; i < l.length; i += batchSize)` loop. -/
def chunkList {α : Type} (batchSize : Nat) (l : List α) : List (List α) :=
  if batchSize = 0 then [] else chunkListAux l.length batchSize l

/-- Accumulator of the batched loop of scanSubnet: accumulated open results,
the loop counter `i`, and the progress callbacks issued so far. -/
structure ScanSubnetState where
  allResults : List ServerScanResult
  i : Nat
  events : List ProgressEvent
deriving Repr, DecidableEq

/-- One iteration of the batch loop of scanSubnet from serverScanner.ts:
probe every host of the batch on every port, keep the open results, and
report progress `(min (i + batchSize) total, total, allResults)`. -/
def scanSubnetStep (env : ScanEnv) (ports : List Int) (batchSize total : Nat)
    (st : ScanSubnetState) (batch : List String) : ScanSubnetState :=
  let batchResults := batch.flatMap (fun ip => ports.map (fun port => checkPort env ip port))
  let openPorts := batchResults.filter (fun r => r.isOpen)
  let allResults := st.allResults ++ openPorts
  { allResults := allResults
    i := st.i + batchSize
    events := st.events ++
      [{ scanned := min (st.i + batchSize) total, total := total, found := allResults }] }

/-- The batch loop of scanSubnet, run over an explicit address list. -/
def scanSubnetOnIps (env : ScanEnv) (ports : List Int) (batchSize : Nat)
    (ips : List String) : ScanSubnetState :=
  (chunkList batchSize ips).foldl (scanSubnetStep env ports batchSize ips.length)
    { allResults := [], i := 0, events := [] }

/-- scanSubnet from serverScanner.ts: fail when no local network information
exists, otherwise enumerate the subnet and run the batch loop. The returned
pair is (final results, progress callbacks issued). -/
def scanSubnet (env : ScanEnv) (ports : List Int) (batchSize : Nat) :
    Except String (List ServerScanResult × List ProgressEvent) :=
  match env.netInfo with
  | none => Except.error "Could not determine local network information"
  | some subnetInfo =>
    let ips := generateSubnetIPs subnetInfo
    let st := scanSubnetOnIps env ports batchSize ips
    Except.ok (st.allResults, st.events)

/-- scanHosts from serverScanner.ts: probe an explicit host list one host at
a time, reporting progress `(i + 1, hosts.length, allResults)` after each.
It never consults `env.netInfo`. -/
def scanHosts (env : ScanEnv) (hosts : List String) (ports : List Int) :
    List ServerScanResult × List ProgressEvent :=
  hosts.enum.foldl
    (fun (st : List ServerScanResult × List ProgressEvent) (p : Nat × String) =>
      let results := scanHostPorts env p.2 ports
      let allResults := st.1 ++ results
      (allResults, st.2 ++ [{ scanned := p.1 + 1, total := hosts.length, found := allResults }]))
    ([], [])

/-! ## UDP discovery scan (scanSubnetUDP) -/

/-- The dedup key `` `${ip}:${info.port}` `` of scanSubnetUDP. -/
def mkKey (ip : String) (port : Int) : String := ip ++ ":" ++ toString port

/-- The related TCP ports queued by the inner loop of scanSubnetUDP: offsets
`-2..2` of the discovered port, kept only when inside `1..65535`. -/
def relatedPortCandidates (discoveredPort : Int) : List Int :=
  ([-2, -1, 0, 1, 2] : List Int).filterMap (fun offset =>
    let relatedPort := discoveredPort + offset
    if relatedPort > 0 ∧ relatedPort ≤ 65535 then some relatedPort else none)

/-- State threaded through the UDP discovery completions: the dedup map
`foundServers` (insertion-ordered, as a JS Map), the TCP related-port probes
issued, and the `completedChecks` counter. -/
structure UdpScanState where
  found : List (String × Server4DScanResult)
  probes : List (String × Int)
  completedChecks : Nat

/-- One completion of a `discover4DServer(ip, port)` promise inside
scanSubnetUDP from serverScanner.ts: bump `completedChecks`; on a reply whose
key is not yet recorded, probe the five related ports over TCP, keep the open
ones sorted ascending, and record one Server4DScanResult under the key. A
key already recorded is skipped with no TCP probing. -/
def udpStep (env : ScanEnv) (st : UdpScanState) (pr : String × Int) : UdpScanState :=
  let ip := pr.1
  let st1 : UdpScanState := { st with completedChecks := st.completedChecks + 1 }
  match env.discover ip pr.2 with
  | none => st1
  | some info =>
    let key := mkKey ip info.port
    if key ∈ st1.found.map Prod.fst then st1
    else
      let cands := relatedPortCandidates info.port
      let tcpResults := cands.map (fun relatedPort => checkPort env ip relatedPort)
      let relatedPorts := (tcpResults.filter (fun r => r.isOpen)).map (fun r => r.port)
      let serverResult : Server4DScanResult :=
        { host := ip
          port := info.port
          isOpen := true
          responseTime := none
          discoveryInfo := some info
          relatedPorts := some (List.insertionSort (· ≤ ·) relatedPorts) }
      { st1 with
        found := st1.found ++ [(key, serverResult)]
        probes := st1.probes ++ cands.map (fun relatedPort => (ip, relatedPort)) }

/-- The discovery completions of scanSubnetUDP over an explicit address
list: every `(ip, port)` pair of the nested loops, processed in order (the
batch barriers only group these completions; they do not change the final
`foundServers` content). -/
def scanSubnetUDPOnIps (env : ScanEnv) (ips : List String) (ports : List Int) :
    UdpScanState :=
  (ips.flatMap (fun ip => ports.map (fun port => (ip, port)))).foldl (udpStep env)
    { found := [], probes := [], completedChecks := 0 }

/-- scanSubnetUDP from serverScanner.ts: fail when no local network
information exists, otherwise run UDP discovery over the subnet and return
`Array.from(foundServers.values())`. -/
def scanSubnetUDP (env : ScanEnv) (ports : List Int) :
    Except String (List Server4DScanResult) :=
  match env.netInfo with
  | none => Except.error "Could not determine local network information"
  | some subnetInfo =>
    let ips := generateSubnetIPs subnetInfo
    Except.ok ((scanSubnetUDPOnIps env ips ports).found.map Prod.snd)

/-! ## Derived definitions and concrete scan environments used by the proofs -/

/-- Open results contributed by one batch of the scanSubnet loop. -/
def batchOpenResults (env : ScanEnv) (ports : List Int) (batch : List String) :
    List ServerScanResult :=
  (batch.flatMap (fun ip => ports.map (fun port => checkPort env ip port))).filter
    (fun r => r.isOpen)

/-- Concrete four-address subnet used to instantiate universally quantified
theorems on a small example. -/
def sampleSubnetInfo : SubnetInfo :=
  { localIp := [10, 0, 0, 1]
    netmask := [255, 255, 255, 252]
    networkAddress := [10, 0, 0, 0]
    broadcastAddress := [10, 0, 0, 3]
    firstHost := [10, 0, 0, 1]
    lastHost := [10, 0, 0, 2]
    totalHosts := 2 }

/-- Concrete discovery reply used in example instantiations. -/
def sampleInfo : Server4DDiscoveryInfo :=
  { host := "srv", service := "4D Server V", database := "db", port := 19813 }

/-- Environment in which host 10.0.0.1 answers every UDP discovery probe with
`sampleInfo`, every other host stays silent, and every TCP connect succeeds. -/
def sampleEnv : ScanEnv :=
  { probeOutcome := fun _ _ => (true, 3)
    discover := fun ip _ => if ip = "10.0.0.1" then some sampleInfo else none
    netInfo := some sampleSubnetInfo }

/-- Environment with no usable local network interface. -/
def noNetEnv : ScanEnv :=
  { probeOutcome := fun _ _ => (false, 0)
    discover := fun _ _ => none
    netInfo := none }

/-- The single server record produced by a discovery scan under `sampleEnv`. -/
def sampleServer : Server4DScanResult :=
  { host := "10.0.0.1"
    port := 19813
    isOpen := true
    responseTime := none
    discoveryInfo := some sampleInfo
    relatedPorts := some [19811, 19812, 19813, 19814, 19815] }

/-! ## Helper lemmas -/

theorem int_lor_zero (x : Int) : x.lor 0 = x := by
  cases x with
  | ofNat n =>
    show Int.lor (Int.ofNat n) (Int.ofNat 0) = Int.ofNat n
    simp [Int.lor]
  | negSucc n => simp [Int.lor, Nat.ldiff]

theorem checkPort_host (env : ScanEnv) (h : String) (p : Int) :
    (checkPort env h p).host = h := by
  simp only [checkPort]
  split <;> rfl

theorem checkPort_port (env : ScanEnv) (h : String) (p : Int) :
    (checkPort env h p).port = p := by
  simp only [checkPort]
  split <;> rfl

theorem chunkListAux_nil {α : Type} (fuel bs : Nat) :
    chunkListAux fuel bs ([] : List α) = [] := by
  cases fuel <;> rfl

theorem chunkListAux_congr {α : Type} (bs : Nat) (hbs : 0 < bs) :
    ∀ (f₁ : Nat) (f₂ : Nat) (l : List α), l.length ≤ f₁ → l.length ≤ f₂ →
      chunkListAux f₁ bs l = chunkListAux f₂ bs l := by
  intro f₁
  induction f₁ with
  | zero =>
    intro f₂ l h1 _
    have : l = [] := List.length_eq_zero.mp (Nat.le_zero.mp h1)
    subst this
    rw [chunkListAux_nil, chunkListAux_nil]
  | succ n ih =>
    intro f₂ l h1 h2
    cases l with
    | nil => rw [chunkListAux_nil, chunkListAux_nil]
    | cons x t =>
      cases f₂ with
      | zero => simp at h2
      | succ m =>
        show (x :: t).take bs :: chunkListAux n bs ((x :: t).drop bs) =
          (x :: t).take bs :: chunkListAux m bs ((x :: t).drop bs)
        congr 1
        simp only [List.length_cons] at h1 h2
        apply ih
        · simp only [List.length_drop, List.length_cons]
          omega
        · simp only [List.length_drop, List.length_cons]
          omega

theorem chunkList_cons {α : Type} (bs : Nat) (hbs : 0 < bs) (l : List α) (hl : l ≠ []) :
    chunkList bs l = l.take bs :: chunkList bs (l.drop bs) := by
  unfold chunkList
  rw [if_neg (Nat.pos_iff_ne_zero.mp hbs), if_neg (Nat.pos_iff_ne_zero.mp hbs)]
  cases l with
  | nil => exact absurd rfl hl
  | cons x t =>
    show (x :: t).take bs :: chunkListAux t.length bs ((x :: t).drop bs) = _
    congr 1
    apply chunkListAux_congr bs hbs
    · simp only [List.length_drop, List.length_cons]
      omega
    · exact Nat.le_refl _

theorem chunkList_nil {α : Type} (bs : Nat) : chunkList bs ([] : List α) = [] := by
  unfold chunkList
  split
  · rfl
  · exact chunkListAux_nil _ _

theorem scanSubnetFoldSpec (env : ScanEnv) (ports : List Int) (bs total : Nat) :
    ∀ (chunks : List (List String)) (st : ScanSubnetState),
      (chunks.foldl (scanSubnetStep env ports bs total) st).i = st.i + chunks.length * bs ∧
      (chunks.foldl (scanSubnetStep env ports bs total) st).allResults =
        st.allResults ++ chunks.flatMap (batchOpenResults env ports) ∧
      (chunks.foldl (scanSubnetStep env ports bs total) st).events =
        st.events ++ (List.range chunks.length).map (fun k =>
          { scanned := min (st.i + (k + 1) * bs) total
            total := total
            found := st.allResults ++
              ((chunks.take (k + 1)).flatMap (batchOpenResults env ports)) }) := by
  intro chunks
  induction chunks with
  | nil => intro st; simp
  | cons ch rest ih =>
    intro st
    obtain ⟨ih1, ih2, ih3⟩ := ih (scanSubnetStep env ports bs total st ch)
    refine ⟨?_, ?_, ?_⟩
    · rw [List.foldl_cons, ih1]
      simp [scanSubnetStep]
      ring
    · rw [List.foldl_cons, ih2]
      simp [scanSubnetStep, batchOpenResults]
    · rw [List.foldl_cons, ih3]
      simp only [scanSubnetStep]
      rw [List.length_cons, List.range_succ_eq_map]
      simp only [List.map_cons, List.map_map]
      simp only [List.append_assoc, List.singleton_append]
      congr 1
      congr 1
      · simp [batchOpenResults]
      · apply List.map_congr_left
        intro k hk
        simp only [Function.comp_apply, Nat.succ_eq_add_one]
        congr 1
        · congr 1
          ring

theorem batchOpenResults_host (env : ScanEnv) (ports : List Int) (batch : List String)
    (r : ServerScanResult) (hr : r ∈ batchOpenResults env ports batch) :
    r.host ∈ batch := by
  unfold batchOpenResults at hr
  have h1 := List.mem_of_mem_filter hr
  rw [List.mem_flatMap] at h1
  obtain ⟨ip, hip, hmem⟩ := h1
  rw [List.mem_map] at hmem
  obtain ⟨port, hport, rfl⟩ := hmem
  rw [checkPort_host]
  exact hip

theorem foldl_preserve {σ β : Type} (f : σ → β → σ) (P : σ → Prop)
    (hstep : ∀ s b, P s → P (f s b)) :
    ∀ (l : List β) (s : σ), P s → P (l.foldl f s) := by
  intro l
  induction l with
  | nil => intro s hs; exact hs
  | cons x t ih => intro s hs; exact ih (f s x) (hstep s x hs)

theorem udpStep_none (env : ScanEnv) (st : UdpScanState) (pr : String × Int)
    (h : env.discover pr.1 pr.2 = none) :
    udpStep env st pr = { st with completedChecks := st.completedChecks + 1 } := by
  simp only [udpStep]
  rw [h]

theorem udpStep_skip (env : ScanEnv) (st : UdpScanState) (pr : String × Int)
    (info : Server4DDiscoveryInfo) (h : env.discover pr.1 pr.2 = some info)
    (hmem : mkKey pr.1 info.port ∈ st.found.map Prod.fst) :
    udpStep env st pr = { st with completedChecks := st.completedChecks + 1 } := by
  simp only [udpStep]
  rw [h]
  simp only
  rw [if_pos hmem]

theorem udpStep_insert (env : ScanEnv) (st : UdpScanState) (pr : String × Int)
    (info : Server4DDiscoveryInfo) (h : env.discover pr.1 pr.2 = some info)
    (hmem : mkKey pr.1 info.port ∉ st.found.map Prod.fst) :
    udpStep env st pr =
      { found := st.found ++ [(mkKey pr.1 info.port,
          { host := pr.1
            port := info.port
            isOpen := true
            responseTime := none
            discoveryInfo := some info
            relatedPorts := some (List.insertionSort (fun a b => a ≤ b)
              ((((relatedPortCandidates info.port).map
                  (fun relatedPort => checkPort env pr.1 relatedPort)).filter
                (fun r => r.isOpen)).map (fun r => r.port))) })]
        probes := st.probes ++ (relatedPortCandidates info.port).map
          (fun relatedPort => (pr.1, relatedPort))
        completedChecks := st.completedChecks + 1 } := by
  simp only [udpStep]
  rw [h]
  simp only
  rw [if_neg hmem]

theorem udpStep_keyInv (env : ScanEnv) (st : UdpScanState) (pr : String × Int)
    (h : (st.found.map Prod.fst).Nodup ∧ ∀ e ∈ st.found, e.1 = mkKey e.2.host e.2.port) :
    ((udpStep env st pr).found.map Prod.fst).Nodup ∧
      ∀ e ∈ (udpStep env st pr).found, e.1 = mkKey e.2.host e.2.port := by
  obtain ⟨h1, h2⟩ := h
  rcases henv : env.discover pr.1 pr.2 with _ | info
  · rw [udpStep_none env st pr henv]
    exact ⟨h1, h2⟩
  · by_cases hmem : mkKey pr.1 info.port ∈ st.found.map Prod.fst
    · rw [udpStep_skip env st pr info henv hmem]
      exact ⟨h1, h2⟩
    · rw [udpStep_insert env st pr info henv hmem]
      constructor
      · simp only [List.map_append, List.map_cons, List.map_nil]
        rw [List.nodup_append]
        refine ⟨h1, List.nodup_singleton _, ?_⟩
        intro a ha hb
        simp at hb
        subst hb
        exact hmem ha
      · intro e he
        simp only [List.mem_append, List.mem_singleton] at he
        rcases he with he | he
        · exact h2 e he
        · subst he
          rfl

theorem udpStep_found_ne_nil (env : ScanEnv) (st : UdpScanState) (pr : String × Int)
    (h : st.found ≠ []) : (udpStep env st pr).found ≠ [] := by
  rcases henv : env.discover pr.1 pr.2 with _ | info
  · rw [udpStep_none env st pr henv]
    exact h
  · by_cases hmem : mkKey pr.1 info.port ∈ st.found.map Prod.fst
    · rw [udpStep_skip env st pr info henv hmem]
      exact h
    · rw [udpStep_insert env st pr info henv hmem]
      simp

theorem udpSingleton_inv (env : ScanEnv) (h : String) (info : Server4DDiscoveryInfo)
    (hdisc : ∀ ip p, env.discover ip p = if ip = h then some info else none)
    (st : UdpScanState) (pr : String × Int)
    (hQ : st.found = [] ∨ ∃ srv, st.found = [(mkKey h info.port, srv)] ∧
      srv.host = h ∧ srv.port = info.port) :
    (udpStep env st pr).found = [] ∨ ∃ srv, (udpStep env st pr).found =
      [(mkKey h info.port, srv)] ∧ srv.host = h ∧ srv.port = info.port := by
  obtain ⟨ip, p⟩ := pr
  by_cases hip : ip = h
  · subst hip
    have hsome : env.discover ip p = some info := by rw [hdisc]; simp
    by_cases hmem : mkKey ip info.port ∈ st.found.map Prod.fst
    · rw [udpStep_skip env st (ip, p) info hsome hmem]
      exact hQ
    · rw [udpStep_insert env st (ip, p) info hsome hmem]
      rcases hQ with hempty | ⟨srv, hsing, hh, hp⟩
      · right
        rw [hempty]
        simp only [List.nil_append]
        exact ⟨_, rfl, rfl, rfl⟩
      · exfalso
        apply hmem
        rw [hsing]
        simp
  · have hnone : env.discover ip p = none := by rw [hdisc]; simp [hip]
    rw [udpStep_none env st (ip, p) hnone]
    exact hQ

theorem relatedPortCandidates_bounds (p x : Int) (hx : x ∈ relatedPortCandidates p) :
    p - 2 ≤ x ∧ x ≤ p + 2 ∧ 1 ≤ x ∧ x ≤ 65535 := by
  simp only [relatedPortCandidates, List.mem_filterMap] at hx
  obtain ⟨off, hoff, hf⟩ := hx
  simp only [List.mem_cons, List.mem_singleton, List.not_mem_nil, or_false] at hoff
  split_ifs at hf with hc
  simp only [Option.some.injEq] at hf
  subst hf
  omega

theorem udpStep_relatedInv (env : ScanEnv) (st : UdpScanState) (pr : String × Int)
    (h : ∀ e ∈ st.found, ∃ rl, e.2.relatedPorts = some rl ∧ rl.Sorted (· ≤ ·) ∧
      ∀ x ∈ rl, e.2.port - 2 ≤ x ∧ x ≤ e.2.port + 2 ∧ 1 ≤ x ∧ x ≤ 65535) :
    ∀ e ∈ (udpStep env st pr).found, ∃ rl, e.2.relatedPorts = some rl ∧
      rl.Sorted (· ≤ ·) ∧
      ∀ x ∈ rl, e.2.port - 2 ≤ x ∧ x ≤ e.2.port + 2 ∧ 1 ≤ x ∧ x ≤ 65535 := by
  rcases henv : env.discover pr.1 pr.2 with _ | info
  · rw [udpStep_none env st pr henv]
    exact h
  · by_cases hmem : mkKey pr.1 info.port ∈ st.found.map Prod.fst
    · rw [udpStep_skip env st pr info henv hmem]
      exact h
    · rw [udpStep_insert env st pr info henv hmem]
      intro e he
      simp only [List.mem_append, List.mem_singleton] at he
      rcases he with he | he
      · exact h e he
      · subst he
        refine ⟨_, rfl, ?_, ?_⟩
        · exact List.sorted_insertionSort (· ≤ ·) _
        · intro x hxmem
          rw [(List.perm_insertionSort (· ≤ ·) _).mem_iff] at hxmem
          simp only [List.mem_map, List.mem_filter] at hxmem
          obtain ⟨r, ⟨hr, -⟩, hxport⟩ := hxmem
          obtain ⟨rp, hrp, hrc⟩ := hr
          have hb := relatedPortCandidates_bounds info.port rp hrp
          have hport : r.port = rp := by rw [← hrc, checkPort_port]
          subst hxport
          show info.port - 2 ≤ r.port ∧ r.port ≤ info.port + 2 ∧
            1 ≤ r.port ∧ r.port ≤ 65535
          rw [hport]
          exact hb

/-! ## Claim theorems -/

/-- C1: the UDP discovery packet built by build4DDiscoveryPacket is exactly 96
bytes: bytes 0-31 are zero; bytes 32-42 are the ASCII characters of
"4D Server V" followed by zero bytes through offset 63; bytes 64-80 are the
ASCII characters of "4DQuicNegociation" followed by zero bytes through
offset 95. The byte values below are the ASCII codes of the two tags. -/
theorem c1_discovery_packet_layout :
    build4DDiscoveryPacket.length = 96 ∧
    build4DDiscoveryPacket =
      List.replicate 32 0 ++ [52, 68, 32, 83, 101, 114, 118, 101, 114, 32, 86] ++
      List.replicate 21 0 ++
      [52, 68, 81, 117, 105, 99, 78, 101, 103, 111, 99, 105, 97, 116, 105, 111, 110] ++
      List.replicate 15 0 := by
  decide

/-- C4 counterexample: calculateSubnet applied to netmask 255.255.255.255
yields totalHosts = -1, a negative value, so totalHosts is not floored at 0
as the claim states. -/
theorem c4_totalHosts_negative_counterexample :
    (calculateSubnet [192, 168, 1, 50] [255, 255, 255, 255]).totalHosts = -1 ∧
    (calculateSubnet [192, 168, 1, 50] [255, 255, 255, 255]).totalHosts < 0 := by
  decide

/-- C4 (amended): for every IPv4 address and netmask, the totalHosts computed
by calculateSubnet equals the subnet's address capacity minus 2 with no
flooring, so it may be negative for tiny subnets; for netmask
255.255.255.255 the result is -1. -/
theorem c4_totalHosts_capacity_minus_two :
    (∀ a b c d ma mb mc md : Int,
      (calculateSubnet [a, b, c, d] [ma, mb, mc, md]).totalHosts =
        (256 - ma) * (256 - mb) * (256 - mc) * (256 - md) - 2) ∧
    (calculateSubnet [192, 168, 1, 50] [255, 255, 255, 255]).totalHosts = -1 := by
  constructor
  · intro a b c d ma mb mc md
    simp [calculateSubnet]
    ring
  · decide

/-- C5: isScanCacheStale returns true exactly when no cache entry exists or
now minus the entry's timestamp strictly exceeds ttl seconds times 1000; an
entry set at time T with TTL 120 seconds is not stale at T+119s and stale at
T+121s. -/
theorem c5_isScanCacheStale_iff :
    (∀ (cache : Option ScanCache) (now ttl : Int),
      isScanCacheStale cache now ttl = true ↔
        (cache = none ∨ ∃ c, cache = some c ∧ now - c.timestamp > ttl * 1000)) ∧
    (∀ (servers : List Server4DWithStatus) (portsByHost : List (String × List Int))
        (T : Int),
      isScanCacheStale (some (setScanCache servers portsByHost T)) (T + 119 * 1000) 120 =
        false ∧
      isScanCacheStale (some (setScanCache servers portsByHost T)) (T + 121 * 1000) 120 =
        true) := by
  constructor
  · intro cache now ttl
    cases cache with
    | none => simp [isScanCacheStale]
    | some c => simp [isScanCacheStale]
  · intro servers portsByHost T
    constructor
    · simp [isScanCacheStale, setScanCache]
    · simp [isScanCacheStale, setScanCache]

/-- C5 witness: the staleness characterisation and the T+119s / T+121s
examples at concrete inputs. -/
theorem c5_isScanCacheStale_iff_witness :
    isScanCacheStale none 0 120 = true ∧
    isScanCacheStale (some (setScanCache [] [] 1000)) (1000 + 119 * 1000) 120 = false ∧
    isScanCacheStale (some (setScanCache [] [] 1000)) (1000 + 121 * 1000) 120 = true :=
  ⟨(c5_isScanCacheStale_iff.1 none 0 120).mpr (Or.inl rfl),
    (c5_isScanCacheStale_iff.2 [] [] 1000).1,
    (c5_isScanCacheStale_iff.2 [] [] 1000).2⟩

/-- C7: the reply handler of discover4DServer yields an absent result (none)
rather than raising when the payload contains no opening or closing brace,
or when the brace-delimited substring fails to parse as JSON; in particular
the reply "garbage\x7bnot json" yields none for every parser oracle. -/
theorem c7_malformed_reply_yields_none
    (jsonParse : String → Option Server4DDiscoveryInfo) (msg : String) :
    ((jsIndexOfChar msg.data openBrace = -1 ∨ jsLastIndexOfChar msg.data closeBrace = -1) →
      parse4DDiscoveryReply jsonParse msg = none) ∧
    (jsonParse (String.mk (jsSubstring msg.data (jsIndexOfChar msg.data openBrace)
        (jsLastIndexOfChar msg.data closeBrace + 1))) = none →
      parse4DDiscoveryReply jsonParse msg = none) ∧
    parse4DDiscoveryReply jsonParse "garbage\x7bnot json" = none := by
  refine ⟨?_, ?_, ?_⟩
  · intro h
    simp only [parse4DDiscoveryReply]
    rw [if_pos h]
  · intro h
    simp only [parse4DDiscoveryReply]
    split
    · rfl
    · exact h
  · simp only [parse4DDiscoveryReply]
    rw [if_pos]
    right
    decide

/-- C7 witness: a brace-free reply and a reply on which the parser oracle
fails both yield none. -/
theorem c7_malformed_reply_yields_none_witness :
    parse4DDiscoveryReply (fun _ => none) "x" = none ∧
    parse4DDiscoveryReply (fun _ => none) "\x7bjunk\x7d" = none :=
  ⟨(c7_malformed_reply_yields_none (fun _ => none) "x").1 (Or.inl (by decide)),
    (c7_malformed_reply_yields_none (fun _ => none) "\x7bjunk\x7d").2.1 rfl⟩

/-- C9: calculateSubnet computes network = ip AND mask per octet, broadcast =
network OR inverted-mask per octet, firstHost = network with last octet plus
1, lastHost = broadcast with last octet minus 1, and totalHosts = product
over octets of (256 - maskOctet) minus 2; for 192.168.1.50 / 255.255.255.0
this gives 192.168.1.0, 192.168.1.255, 192.168.1.1, 192.168.1.254 and 254. -/
theorem c9_calculateSubnet_formula :
    (∀ a b c d ma mb mc md : Int,
      calculateSubnet [a, b, c, d] [ma, mb, mc, md] =
        { localIp := [a, b, c, d]
          netmask := [ma, mb, mc, md]
          networkAddress := [a.land ma, b.land mb, c.land mc, d.land md]
          broadcastAddress := [(a.land ma).lor (255 - ma), (b.land mb).lor (255 - mb),
            (c.land mc).lor (255 - mc), (d.land md).lor (255 - md)]
          firstHost := [a.land ma, b.land mb, c.land mc, d.land md + 1]
          lastHost := [(a.land ma).lor (255 - ma), (b.land mb).lor (255 - mb),
            (c.land mc).lor (255 - mc), (d.land md).lor (255 - md) - 1]
          totalHosts := (256 - ma) * (256 - mb) * (256 - mc) * (256 - md) - 2 }) ∧
    calculateSubnet [192, 168, 1, 50] [255, 255, 255, 0] =
      { localIp := [192, 168, 1, 50]
        netmask := [255, 255, 255, 0]
        networkAddress := [192, 168, 1, 0]
        broadcastAddress := [192, 168, 1, 255]
        firstHost := [192, 168, 1, 1]
        lastHost := [192, 168, 1, 254]
        totalHosts := 254 } := by
  constructor
  · intro a b c d ma mb mc md
    simp [calculateSubnet, List.mapIdx_cons, List.getD, List.set]
    ring_nf
  · decide

/-- C10: for netmask 255.255.255.255, generateSubnetIPs applied to the
computed SubnetInfo returns the empty list: the first host's last octet
exceeds the last host's last octet, so the enumeration loop produces
nothing. -/
theorem c10_degenerate_mask_empty_enumeration (ip : List Int) (h : ip.length = 4) :
    generateSubnetIPs (calculateSubnet ip [255, 255, 255, 255]) = [] := by
  match ip, h with
  | [a, b, c, d], _ =>
    simp [calculateSubnet, generateSubnetIPs, List.mapIdx_cons, List.getD, List.set,
      int_lor_zero, jsForRange]
    omega

/-- C10 witness: the degenerate-mask enumeration at a concrete address. -/
theorem c10_degenerate_mask_empty_enumeration_witness :
    generateSubnetIPs (calculateSubnet [192, 168, 1, 50] [255, 255, 255, 255]) = [] :=
  c10_degenerate_mask_empty_enumeration [192, 168, 1, 50] rfl

/-- C2: every run of scanSubnetUDP returns at most one entry per host:port
dedup key; a key already recorded is skipped with no related-port probing;
and a host answering identically on every probed port (others silent) yields
exactly one DiscoveredServer, keyed by the port claimed in the reply. -/
theorem c2_scanSubnetUDP_dedup :
    (∀ (env : ScanEnv) (ports : List Int) (l : List Server4DScanResult),
      scanSubnetUDP env ports = Except.ok l →
      (l.map (fun s => mkKey s.host s.port)).Nodup) ∧
    (∀ (env : ScanEnv) (st : UdpScanState) (ip : String) (port : Int)
      (info : Server4DDiscoveryInfo),
      env.discover ip port = some info →
      mkKey ip info.port ∈ st.found.map Prod.fst →
      (udpStep env st (ip, port)).found = st.found ∧
        (udpStep env st (ip, port)).probes = st.probes) ∧
    (∀ (env : ScanEnv) (si : SubnetInfo) (h : String) (info : Server4DDiscoveryInfo)
      (ports : List Int),
      env.netInfo = some si →
      h ∈ generateSubnetIPs si →
      (∀ ip p, env.discover ip p = if ip = h then some info else none) →
      ports ≠ [] →
      ∃ srv, scanSubnetUDP env ports = Except.ok [srv] ∧
        srv.host = h ∧ srv.port = info.port) := by
  refine ⟨?_, ?_, ?_⟩
  · intro env ports l hok
    rcases hni : env.netInfo with _ | si
    · rw [scanSubnetUDP, hni] at hok
      cases hok
    · simp only [scanSubnetUDP, hni, Except.ok.injEq] at hok
      subst hok
      have hinv := foldl_preserve (udpStep env)
        (fun st => (st.found.map Prod.fst).Nodup ∧
          ∀ e ∈ st.found, e.1 = mkKey e.2.host e.2.port)
        (fun s b hs => udpStep_keyInv env s b hs)
        ((generateSubnetIPs si).flatMap (fun ip => ports.map (fun port => (ip, port))))
        { found := [], probes := [], completedChecks := 0 }
        ⟨List.nodup_nil, fun e he => absurd he (List.not_mem_nil e)⟩
      obtain ⟨h1, h2⟩ := hinv
      rw [List.map_map]
      have hmaps : (List.map ((fun s => mkKey s.host s.port) ∘ Prod.snd)
          (scanSubnetUDPOnIps env (generateSubnetIPs si) ports).found) =
          (scanSubnetUDPOnIps env (generateSubnetIPs si) ports).found.map Prod.fst := by
        apply List.map_congr_left
        intro e he
        exact (h2 e he).symm
      rw [hmaps]
      exact h1
  · intro env st ip port info hsome hmem
    rw [udpStep_skip env st (ip, port) info hsome hmem]
    exact ⟨rfl, rfl⟩
  · intro env si h info ports hni hmem hdisc hne
    obtain ⟨p₀, hp₀⟩ := List.exists_mem_of_ne_nil ports hne
    have hpair : (h, p₀) ∈ (generateSubnetIPs si).flatMap
        (fun ip => ports.map (fun port => (ip, port))) := by
      rw [List.mem_flatMap]
      exact ⟨h, hmem, List.mem_map.mpr ⟨p₀, hp₀, rfl⟩⟩
    obtain ⟨s, t, hsplit⟩ := List.append_of_mem hpair
    have hsome : env.discover h p₀ = some info := by rw [hdisc]; simp
    have hQ1 := foldl_preserve (udpStep env)
      (fun st => st.found = [] ∨ ∃ srv, st.found = [(mkKey h info.port, srv)] ∧
        srv.host = h ∧ srv.port = info.port)
      (fun st pr hst => udpSingleton_inv env h info hdisc st pr hst)
      s { found := [], probes := [], completedChecks := 0 } (Or.inl rfl)
    set st1 := List.foldl (udpStep env) { found := [], probes := [], completedChecks := 0 } s
      with hst1
    have hQ2 := udpSingleton_inv env h info hdisc st1 (h, p₀) hQ1
    have hne2 : (udpStep env st1 (h, p₀)).found ≠ [] := by
      rcases hQ1 with hempty | ⟨srv, hsing, hh, hp⟩
      · rw [udpStep_insert env st1 (h, p₀) info hsome (by rw [hempty]; simp)]
        simp
      · rw [udpStep_skip env st1 (h, p₀) info hsome (by rw [hsing]; simp)]
        rw [hsing]
        simp
    have hfin := foldl_preserve (udpStep env)
      (fun st => (st.found = [] ∨ ∃ srv, st.found = [(mkKey h info.port, srv)] ∧
        srv.host = h ∧ srv.port = info.port) ∧ st.found ≠ [])
      (fun st pr hst => ⟨udpSingleton_inv env h info hdisc st pr hst.1,
        udpStep_found_ne_nil env st pr hst.2⟩)
      t (udpStep env st1 (h, p₀)) ⟨hQ2, hne2⟩
    rcases hfin.1 with hempty | ⟨srv, hsing, hh, hp⟩
    · exact absurd hempty hfin.2
    · refine ⟨srv, ?_, hh, hp⟩
      simp only [scanSubnetUDP, hni, Except.ok.injEq]
      unfold scanSubnetUDPOnIps
      rw [hsplit, List.foldl_append, List.foldl_cons, ← hst1, hsing]
      rfl

/-- C2 witness: the dedup, skip and single-discovery statements at a
concrete two-host environment where 10.0.0.1 answers every probe. -/
theorem c2_scanSubnetUDP_dedup_witness :
    ([sampleServer].map (fun s => mkKey s.host s.port)).Nodup ∧
    ((udpStep sampleEnv
        { found := [(mkKey "10.0.0.1" 19813, sampleServer)], probes := [],
          completedChecks := 0 } ("10.0.0.1", 19813)).found =
      [(mkKey "10.0.0.1" 19813, sampleServer)] ∧
      (udpStep sampleEnv
        { found := [(mkKey "10.0.0.1" 19813, sampleServer)], probes := [],
          completedChecks := 0 } ("10.0.0.1", 19813)).probes = []) ∧
    (∃ srv, scanSubnetUDP sampleEnv [19813] = Except.ok [srv] ∧
      srv.host = "10.0.0.1" ∧ srv.port = 19813) :=
  ⟨c2_scanSubnetUDP_dedup.1 sampleEnv [19813] [sampleServer] rfl,
    c2_scanSubnetUDP_dedup.2.1 sampleEnv
      { found := [(mkKey "10.0.0.1" 19813, sampleServer)], probes := [],
        completedChecks := 0 } "10.0.0.1" 19813 sampleInfo rfl (by decide),
    c2_scanSubnetUDP_dedup.2.2 sampleEnv sampleSubnetInfo "10.0.0.1" sampleInfo [19813]
      rfl (by decide) (fun ip p => rfl) (by decide)⟩

/-- C3: every DiscoveredServer produced by scanSubnetUDP has a relatedPorts
list sorted ascending whose elements lie in [port-2, port+2] and in
[1, 65535]; every related-port candidate obeys the same bounds, and for
discovered ports 65535 and 1 the candidate lists never leave the valid
range. -/
theorem c3_relatedPorts_sorted_bounded :
    (∀ (env : ScanEnv) (ports : List Int) (l : List Server4DScanResult),
      scanSubnetUDP env ports = Except.ok l →
      ∀ s ∈ l, ∃ rl, s.relatedPorts = some rl ∧ rl.Sorted (· ≤ ·) ∧
        ∀ x ∈ rl, s.port - 2 ≤ x ∧ x ≤ s.port + 2 ∧ 1 ≤ x ∧ x ≤ 65535) ∧
    (∀ (p x : Int), x ∈ relatedPortCandidates p →
      p - 2 ≤ x ∧ x ≤ p + 2 ∧ 1 ≤ x ∧ x ≤ 65535) ∧
    relatedPortCandidates 65535 = [65533, 65534, 65535] ∧
    relatedPortCandidates 1 = [1, 2, 3] := by
  refine ⟨?_, relatedPortCandidates_bounds, by decide, by decide⟩
  intro env ports l hok
  rcases hni : env.netInfo with _ | si
  · rw [scanSubnetUDP, hni] at hok
    cases hok
  · simp only [scanSubnetUDP, hni, Except.ok.injEq] at hok
    subst hok
    have hinv := foldl_preserve (udpStep env)
      (fun st => ∀ e ∈ st.found, ∃ rl, e.2.relatedPorts = some rl ∧
        rl.Sorted (· ≤ ·) ∧
        ∀ x ∈ rl, e.2.port - 2 ≤ x ∧ x ≤ e.2.port + 2 ∧ 1 ≤ x ∧ x ≤ 65535)
      (fun s b hs => udpStep_relatedInv env s b hs)
      ((generateSubnetIPs si).flatMap (fun ip => ports.map (fun port => (ip, port))))
      { found := [], probes := [], completedChecks := 0 }
      (fun e he => absurd he (List.not_mem_nil e))
    intro s hs
    rw [List.mem_map] at hs
    obtain ⟨e, he, rfl⟩ := hs
    exact hinv e he

/-- C3 witness: the sortedness and bounds of the concrete server found under
sampleEnv, and the bound instance for discovered port 65535. -/
theorem c3_relatedPorts_sorted_bounded_witness :
    (∃ rl, sampleServer.relatedPorts = some rl ∧ rl.Sorted (· ≤ ·) ∧
      ∀ x ∈ rl, sampleServer.port - 2 ≤ x ∧ x ≤ sampleServer.port + 2 ∧
        1 ≤ x ∧ x ≤ 65535) ∧
    ((65535 : Int) - 2 ≤ 65533 ∧ (65533 : Int) ≤ 65535 + 2 ∧
      (1 : Int) ≤ 65533 ∧ (65533 : Int) ≤ 65535) :=
  ⟨c3_relatedPorts_sorted_bounded.1 sampleEnv [19813] [sampleServer] rfl
      sampleServer (by decide),
    c3_relatedPorts_sorted_bounded.2.1 65535 65533 (by decide)⟩

/-- C6: in the batch loop of scanSubnet the progress callback fires exactly
once per batch, in batch order, with monotonically non-decreasing scanned
counts; for 25 hosts and batchSize 20 it fires exactly twice with scanned
counts 20 then 25, and the first call's accumulated results contain no
results from hosts 21-25. The first conjunct ties the loop to scanSubnet. -/
theorem c6_progress_per_batch :
    (∀ (env : ScanEnv) (ports : List Int) (batchSize : Nat) (si : SubnetInfo),
      env.netInfo = some si →
      scanSubnet env ports batchSize =
        Except.ok ((scanSubnetOnIps env ports batchSize (generateSubnetIPs si)).allResults,
          (scanSubnetOnIps env ports batchSize (generateSubnetIPs si)).events)) ∧
    (∀ (env : ScanEnv) (ports : List Int) (batchSize : Nat) (ips : List String),
      (scanSubnetOnIps env ports batchSize ips).events.length =
        (chunkList batchSize ips).length) ∧
    (∀ (env : ScanEnv) (ports : List Int) (batchSize : Nat) (ips : List String),
      ((scanSubnetOnIps env ports batchSize ips).events.map
        (fun e => e.scanned)).Pairwise (· ≤ ·)) ∧
    (∀ (env : ScanEnv) (ports : List Int) (ips : List String), ips.length = 25 →
      ((scanSubnetOnIps env ports 20 ips).events.map (fun e => e.scanned)) = [20, 25] ∧
      ∀ r ∈ ((scanSubnetOnIps env ports 20 ips).events.getD 0
          { scanned := 0, total := 0, found := [] }).found,
        r.host ∈ ips.take 20) := by
  refine ⟨?_, ?_, ?_, ?_⟩
  · intro env ports batchSize si h
    simp [scanSubnet, h]
  · intro env ports batchSize ips
    have h := (scanSubnetFoldSpec env ports batchSize ips.length (chunkList batchSize ips)
      { allResults := [], i := 0, events := [] }).2.2
    unfold scanSubnetOnIps
    rw [h]
    simp
  · intro env ports batchSize ips
    have h := (scanSubnetFoldSpec env ports batchSize ips.length (chunkList batchSize ips)
      { allResults := [], i := 0, events := [] }).2.2
    unfold scanSubnetOnIps
    rw [h]
    simp only [List.nil_append, List.map_map]
    rw [List.pairwise_map]
    apply (List.pairwise_lt_range _).imp
    intro a b hab
    simp only [Function.comp_apply]
    have hmul : (a + 1) * batchSize ≤ (b + 1) * batchSize :=
      Nat.mul_le_mul_right _ (by omega)
    omega
  · intro env ports ips hlen
    have hne : ips ≠ [] := by
      intro h
      rw [h] at hlen
      simp at hlen
    have hd1 : (ips.drop 20).length = 5 := by
      simp [List.length_drop, hlen]
    have hne2 : ips.drop 20 ≠ [] := by
      intro h
      rw [h] at hd1
      simp at hd1
    have hd2 : (ips.drop 20).drop 20 = [] := by
      apply List.length_eq_zero.mp
      simp [List.length_drop, hlen]
    have hch : chunkList 20 ips = [ips.take 20, (ips.drop 20).take 20] := by
      rw [chunkList_cons 20 (by norm_num) ips hne,
        chunkList_cons 20 (by norm_num) (ips.drop 20) hne2, hd2, chunkList_nil]
    have h := (scanSubnetFoldSpec env ports 20 ips.length (chunkList 20 ips)
      { allResults := [], i := 0, events := [] }).2.2
    unfold scanSubnetOnIps
    rw [h, hch, hlen]
    have hlen2 : ([ips.take 20, (ips.drop 20).take 20] : List (List String)).length = 2 :=
      rfl
    have hrange : List.range 2 = [0, 1] := rfl
    rw [hlen2, hrange]
    simp only [List.map_cons, List.map_nil, List.nil_append, List.getD_cons_zero]
    constructor
    · norm_num
    · intro r hr
      simp only [List.take_succ_cons, List.take_zero, List.flatMap_cons, List.flatMap_nil,
        List.append_nil] at hr
      exact batchOpenResults_host env ports _ r hr

/-- C6 witness: the loop-to-scanSubnet connection under sampleEnv, and the
25-host, batch-size-20 instance on a concrete host list. -/
theorem c6_progress_per_batch_witness :
    (scanSubnet sampleEnv [19813] 20 =
      Except.ok
        ((scanSubnetOnIps sampleEnv [19813] 20 (generateSubnetIPs sampleSubnetInfo)).allResults,
          (scanSubnetOnIps sampleEnv [19813] 20 (generateSubnetIPs sampleSubnetInfo)).events)) ∧
    (((scanSubnetOnIps sampleEnv [19813] 20 (List.replicate 25 "h")).events.map
        (fun e => e.scanned)) = [20, 25] ∧
      ∀ r ∈ ((scanSubnetOnIps sampleEnv [19813] 20 (List.replicate 25 "h")).events.getD 0
          { scanned := 0, total := 0, found := [] }).found,
        r.host ∈ (List.replicate 25 "h").take 20) :=
  ⟨c6_progress_per_batch.1 sampleEnv [19813] 20 sampleSubnetInfo rfl,
    c6_progress_per_batch.2.2.2 sampleEnv [19813] (List.replicate 25 "h") (by decide)⟩

/-- C8: when no non-loopback IPv4 interface exists, scanSubnet and
scanSubnetUDP fail with the network-information error before producing any
batch results or progress events, while scanHosts never consults the local
network information at all. -/
theorem c8_no_network_precondition :
    (∀ (env : ScanEnv) (ports : List Int) (batchSize : Nat),
      env.netInfo = none →
      scanSubnet env ports batchSize =
        Except.error "Could not determine local network information") ∧
    (∀ (env : ScanEnv) (ports : List Int),
      env.netInfo = none →
      scanSubnetUDP env ports =
        Except.error "Could not determine local network information") ∧
    (∀ (probeOutcome : String → Int → Bool × Int)
      (discover : String → Int → Option Server4DDiscoveryInfo)
      (ni nj : Option SubnetInfo) (hosts : List String) (ports : List Int),
      scanHosts { probeOutcome := probeOutcome, discover := discover, netInfo := ni }
          hosts ports =
        scanHosts { probeOutcome := probeOutcome, discover := discover, netInfo := nj }
          hosts ports) := by
  refine ⟨?_, ?_, ?_⟩
  · intro env ports batchSize h
    rw [scanSubnet, h]
  · intro env ports h
    rw [scanSubnetUDP, h]
  · intro probeOutcome discover ni nj hosts ports
    rfl

/-- C8 witness: the fatal-error results under the no-interface environment
and the netInfo-independence of scanHosts at concrete inputs. -/
theorem c8_no_network_precondition_witness :
    scanSubnet noNetEnv [19813] 20 =
      Except.error "Could not determine local network information" ∧
    scanSubnetUDP noNetEnv [19813] =
      Except.error "Could not determine local network information" ∧
    scanHosts (ScanEnv.mk (fun _ _ => (true, 1)) (fun _ _ => none) none)
        ["10.0.0.9"] [19813] =
      scanHosts (ScanEnv.mk (fun _ _ => (true, 1)) (fun _ _ => none)
        (some sampleSubnetInfo)) ["10.0.0.9"] [19813] :=
  ⟨c8_no_network_precondition.1 noNetEnv [19813] 20 rfl,
    c8_no_network_precondition.2.1 noNetEnv [19813] rfl,
    c8_no_network_precondition.2.2 (fun _ _ => (true, 1)) (fun _ _ => none)
      none (some sampleSubnetInfo) ["10.0.0.9"] [19813]⟩

end FourDHelper
